import Mathlib

/-!
Shallow embedding of the bitcoin_wallet_notifier repository
(`monitor.py`, the final class-based shape; `script.py` is an earlier
near-duplicate evolution of the same program).

Modelling conventions:
* Python exceptions are `Except String α` (`PyResult α`): `Except.error msg`
  is a raised exception, `Except.ok` a normal return.
* The network (`requests.get`) is an explicit argument
  `http : String → PyResult Response` mapping an address to either a raised
  connection error or a `Response`.
* JSON values are the inductive `Json`; Python `dict` objects are association
  lists with first-occurrence lookup and in-place overwrite on update,
  exactly Python's observable dict semantics for these programs.
* Python floats are modelled as exact rationals `ℚ`; the satoshi sums are
  integers, so every balance the program computes is an integer divided by
  100000000.
* Notification side effects are reified: `monitor_address` returns, next to
  the updated balance dict, the list of `_send_notification` calls it makes
  (`Dispatch`), and `send_notification` returns the list of `apobj.notify`
  delivery calls it performs (`Notification`).
-/

namespace BitcoinNotifier

/-- Python exception-or-value results: `Except.error` is a raised exception
carrying its message. -/
abbrev PyResult (α : Type) := Except String α

/-- JSON values, as returned by `resp.json()` and stored in the config dict. -/
inductive Json where
  | null : Json
  | bool (b : Bool) : Json
  | num (n : Int) : Json
  | str (s : String) : Json
  | arr (elems : List Json) : Json
  | obj (fields : List (String × Json)) : Json

/-- Python dict lookup `d[k]` / `d.get(k)` value: first matching key. -/
def dictGet {α : Type} : List (String × α) → String → Option α
  | [], _ => none
  | (k', v) :: rest, k => if k' = k then some v else dictGet rest k

/-- Python dict update `d[k] = v`: overwrite the first occurrence of the key
in place, otherwise append a new entry (insertion order preserved). -/
def dictSet {α : Type} : List (String × α) → String → α → List (String × α)
  | [], k, v => [(k, v)]
  | (k', v') :: rest, k, v =>
      if k' = k then (k, v) :: rest else (k', v') :: dictSet rest k v

/-- Python truthiness of a JSON value, as used by `if self.notify_errors:`. -/
def truthy : Json → Bool
  | Json.null => false
  | Json.bool b => b
  | Json.num n => decide (n ≠ 0)
  | Json.str s => decide (s ≠ "")
  | Json.arr [] => false
  | Json.arr (_ :: _) => true
  | Json.obj [] => false
  | Json.obj (_ :: _) => true

/-- An HTTP response as seen by the program: status code plus the already
parsed JSON body (`resp.json()`). -/
structure Response where
  status_code : Nat
  body : Json

/-- `resp.raise_for_status()`: `requests` raises `HTTPError` exactly for
4xx and 5xx status codes. -/
def raise_for_status (resp : Response) : PyResult Unit :=
  if 400 ≤ resp.status_code ∧ resp.status_code < 600 then
    Except.error ("HTTPError: " ++ toString resp.status_code)
  else
    Except.ok ()

/-- Python subscripting `data[k]`: `KeyError` when the key is absent,
`TypeError` when the value is not a dict. -/
def Json.getItem : Json → String → PyResult Json
  | Json.obj fields, k =>
      match dictGet fields k with
      | some v => Except.ok v
      | none => Except.error ("KeyError: " ++ k)
  | _, k => Except.error ("TypeError: value is not subscriptable: " ++ k)

/-- Python `a - b` on JSON field values: defined for numbers, `TypeError`
otherwise (the fields used are cumulative satoshi totals, integers). -/
def jsonSub : Json → Json → PyResult Int
  | Json.num a, Json.num b => Except.ok (a - b)
  | _, _ => Except.error "TypeError: unsupported operand types for -"

/-- `BitcoinAddressMonitor.get_balance` (monitor.py lines 117-137; identical
`get_balance` in script.py lines 16-36): GET the explorer API for the
address, `raise_for_status`, read `chain_stats.funded_txo_sum` and
`chain_stats.spent_txo_sum`, return their difference divided by
100,000,000. The network is the explicit `http` argument. -/
def get_balance (http : String → PyResult Response) (address : String) :
    PyResult ℚ :=
  match http address with
  | Except.error e => Except.error e
  | Except.ok resp =>
    match raise_for_status resp with
    | Except.error e => Except.error e
    | Except.ok _ =>
      match resp.body.getItem "chain_stats" with
      | Except.error e => Except.error e
      | Except.ok chain_stats =>
        match chain_stats.getItem "funded_txo_sum",
              chain_stats.getItem "spent_txo_sum" with
        | Except.error e, _ => Except.error e
        | Except.ok _, Except.error e => Except.error e
        | Except.ok funded, Except.ok spent =>
          match jsonSub funded spent with
          | Except.error e => Except.error e
          | Except.ok satoshi_balance =>
              Except.ok ((satoshi_balance : ℚ) / 100000000)

/-- The eight fractional digits of `n % 10^8`, most significant first
(the digits after the decimal point of Python's format `:.8f`). -/
def frac8 (n : Nat) : List Char :=
  (List.range 8).map (fun i => Char.ofNat (48 + n / 10 ^ (7 - i) % 10))

/-- Python's fixed-point format `:.8f` on a balance, modelled at the
rational level: round to the nearest multiple of 10^-8 and print the sign,
the integer part, a point, and exactly eight fractional digits. -/
def format8 (q : ℚ) : String :=
  let n : Nat := (round (|q| * 100000000)).toNat
  let sign := if q < 0 then "-" else ""
  sign ++ toString (n / 100000000) ++ "." ++ String.mk (frac8 (n % 100000000))

/-- The funds-received message body (monitor.py lines 186-189). -/
def funds_message (title address : String) (balance : ℚ) : String :=
  "🎉 New funds received for " ++ title ++ " (" ++ address ++
    ")! Balance increased to " ++ format8 balance ++ " BTC"

/-- The balance-decreased message body (monitor.py lines 197-200). -/
def decreased_message (title address : String) (balance : ℚ) : String :=
  "⚠️ Balance decreased for " ++ title ++ " (" ++ address ++ ")! Now " ++
    format8 balance ++ " BTC"

/-- The error message body (monitor.py line 209). -/
def error_message (title address e : String) : String :=
  "Error monitoring " ++ title ++ " (" ++ address ++ "): " ++ e

/-- One call to `BitcoinAddressMonitor._send_notification`: its `body`,
`title` and optional `address` arguments. -/
structure Dispatch where
  body : String
  title : String
  address : Option String
deriving DecidableEq

/-- One aggregate delivery call `apobj.notify(body=..., title=...)`. -/
structure Notification where
  body : String
  title : String
deriving DecidableEq

/-- The body with the explorer deep-link appended when an address is given
(monitor.py lines 101-104). -/
def full_body_of (body : String) (address : Option String) : String :=
  match address with
  | some a => body ++ "\n\nView on explorer: https://blockstream.info/address/" ++ a
  | none => body

/-- `BitcoinAddressMonitor._send_notification` (monitor.py lines 86-107):
returns the list of `apobj.notify` delivery calls performed. `notify` is
invoked only when `self.apobj.urls()` is non-empty (the `and`
short-circuits), so with zero registered URLs no delivery call happens. -/
def send_notification (urls : List String) (body title : String)
    (address : Option String) : List Notification :=
  if urls = [] then [] else [⟨full_body_of body address, title⟩]

/-- `BitcoinAddressMonitor.send_test_notification` (monitor.py lines
139-154): one delivery call with the fixed test body and title when URLs
are configured, none otherwise. -/
def send_test_notification (urls : List String) : List Notification :=
  if urls = [] then []
  else
    [⟨"This is a test notification from your Bitcoin address monitor.",
      "Bitcoin Monitor Test Notification"⟩]

/-- `self.notify_errors = self.config.get("notify_errors", False)`
(monitor.py line 32): the raw config value with default `False`. -/
def notify_errors_of (config : List (String × Json)) : Json :=
  (dictGet config "notify_errors").getD (Json.bool false)

/-- One address descriptor from the `addresses` config array, as a Python
dict: each field is present or absent. -/
structure Item where
  address : Option String
  title : Option String
deriving DecidableEq

/-- The `self.last_balances` dict: address → `None` (unobserved) or the
last observed balance. -/
abbrev Balances := List (String × Option ℚ)

/-- Result of one normally terminating `monitor_address` step: the updated
balance dict and the `_send_notification` calls made, in order. -/
structure StepResult where
  balances : Balances
  dispatches : List Dispatch
deriving DecidableEq

/-- `BitcoinAddressMonitor._initialize_balances` (monitor.py lines 109-115;
`initialize_balances` in script.py lines 128-137), the dict comprehension
built left to right; `item["address"]` raises `KeyError` when absent. -/
def init_balances_aux (acc : Balances) : List Item → PyResult Balances
  | [] => Except.ok acc
  | item :: rest =>
    match item.address with
    | some a => init_balances_aux (dictSet acc a none) rest
    | none => Except.error "KeyError: address"

/-- The balance dict built from the configured address descriptors. -/
def init_balances (addresses_config : List Item) : PyResult Balances :=
  init_balances_aux [] addresses_config

/-- `BitcoinAddressMonitor.monitor_address` (monitor.py lines 170-216;
`monitor_address` in script.py lines 140-183 differs only in notifying
errors unconditionally). `item["address"]` is read before the `try` block,
so a missing key raises out of the step; inside the `try`, a failure of
`get_balance` or of the `self.last_balances[address]` read is caught by the
`except Exception` handler, which leaves the dict untouched and dispatches
an error notification exactly when `notify_errors` is truthy. On success
the dict entry is set to the fetched balance in every sub-case. -/
def monitor_address (notify_errors : Bool)
    (http : String → PyResult Response) (item : Item)
    (last_balances : Balances) : PyResult StepResult :=
  match item.address with
  | none => Except.error "KeyError: address"
  | some address =>
    let title := (item.title).getD address
    let on_error : String → StepResult := fun e =>
      ⟨last_balances,
        if notify_errors then
          [⟨error_message title address e, "Bitcoin Monitor Error",
            some address⟩]
        else []⟩
    match get_balance http address with
    | Except.error e => Except.ok (on_error e)
    | Except.ok balance =>
      match dictGet last_balances address with
      | none => Except.ok (on_error ("KeyError: " ++ address))
      | some none =>
          Except.ok ⟨dictSet last_balances address (some balance), []⟩
      | some (some old) =>
          if balance > old then
            Except.ok ⟨dictSet last_balances address (some balance),
              [⟨funds_message title address balance,
                "Bitcoin Funds Received!", some address⟩]⟩
          else if balance < old then
            Except.ok ⟨dictSet last_balances address (some balance),
              [⟨decreased_message title address balance,
                "Bitcoin Balance Decreased!", some address⟩]⟩
          else
            Except.ok ⟨dictSet last_balances address (some balance), []⟩

/-- `BitcoinAddressMonitor.monitor_addresses` (monitor.py lines 218-221):
one round over the configured descriptors in order, threading the balance
dict; an exception escaping one step aborts the round. -/
def monitor_addresses (notify_errors : Bool)
    (http : String → PyResult Response) :
    List Item → Balances → PyResult (Balances × List Dispatch)
  | [], last_balances => Except.ok (last_balances, [])
  | item :: rest, last_balances =>
    match monitor_address notify_errors http item last_balances with
    | Except.error e => Except.error e
    | Except.ok r =>
      match monitor_addresses notify_errors http rest r.balances with
      | Except.error e => Except.error e
      | Except.ok (b, ds) => Except.ok (b, r.dispatches ++ ds)

/-! ### Dictionary lemmas -/

theorem dictGet_dictSet {α : Type} (d : List (String × α)) (k a : String)
    (v : α) :
    dictGet (dictSet d k v) a = if a = k then some v else dictGet d a := by
  induction d with
  | nil => by_cases h : a = k <;> simp [dictGet, dictSet, h, Ne.symm]
  | cons hd tl ih =>
    obtain ⟨k', v'⟩ := hd
    by_cases hk : k' = k
    · subst hk
      by_cases ha : a = k' <;> simp [dictGet, dictSet, ha, Ne.symm]
    · by_cases ha : a = k
      · subst ha
        simp [dictGet, dictSet, hk, Ne.symm hk, ih]
      · by_cases ha' : k' = a <;> simp [dictGet, dictSet, hk, ha, ha', ih]

theorem map_fst_dictSet {α : Type} (d : List (String × α)) (k : String)
    (v : α) :
    (dictSet d k v).map Prod.fst =
      if k ∈ d.map Prod.fst then d.map Prod.fst
      else d.map Prod.fst ++ [k] := by
  induction d with
  | nil => simp [dictSet]
  | cons hd tl ih =>
    obtain ⟨k', v'⟩ := hd
    by_cases hk : k' = k
    · subst hk
      simp [dictSet]
    · by_cases hmem : k ∈ tl.map Prod.fst <;>
        simp [dictSet, hk, Ne.symm hk, hmem, ih]

theorem nodup_map_fst_dictSet {α : Type} (d : List (String × α)) (k : String)
    (v : α) (h : (d.map Prod.fst).Nodup) :
    ((dictSet d k v).map Prod.fst).Nodup := by
  rw [map_fst_dictSet]
  by_cases hmem : k ∈ d.map Prod.fst
  · simpa [hmem] using h
  · simp [hmem, List.nodup_append, h]

/-! ### Fixtures used by witnesses and counterexamples -/

/-- A response body with the two `chain_stats` satoshi totals. -/
def chainBody (funded spent : Int) : Json :=
  Json.obj [("chain_stats",
    Json.obj [("funded_txo_sum", Json.num funded),
              ("spent_txo_sum", Json.num spent)])]

/-- A network on which every request succeeds with status 200 and the given
satoshi totals. -/
def httpOk (funded spent : Int) : String → PyResult Response :=
  fun _ => Except.ok ⟨200, chainBody funded spent⟩

/-- A network on which every request raises a connection error. -/
def httpDown : String → PyResult Response :=
  fun _ => Except.error "ConnectionError: blockstream.info unreachable"

/-- A descriptor with address `"A"` and title `"T"`. -/
def itemA : Item := ⟨some "A", some "T"⟩

theorem get_balance_httpOk (funded spent : Int) (address : String) :
    get_balance (httpOk funded spent) address =
      Except.ok (((funded - spent : Int) : ℚ) / 100000000) := rfl

theorem get_balance_httpDown (address : String) :
    get_balance httpDown address =
      Except.error "ConnectionError: blockstream.info unreachable" := rfl

/-! ### Claim theorems -/

/-- C2: for every address, the first successful fetch (stored state still
`None`) emits neither a funds-received nor a balance-decreased notification;
it only records the baseline, for any fetched value. -/
theorem first_observation_is_baseline (notify_errors : Bool)
    (http : String → PyResult Response) (item : Item) (lb : Balances)
    (addr : String) (bal : ℚ)
    (haddr : item.address = some addr)
    (hbal : get_balance http addr = Except.ok bal)
    (hstate : dictGet lb addr = some none) :
    monitor_address notify_errors http item lb =
      Except.ok ⟨dictSet lb addr (some bal), []⟩ := by
  simp [monitor_address, haddr, hbal, hstate]

theorem first_observation_is_baseline_witness :
    itemA.address = some "A" ∧
    get_balance (httpOk 200000000 0) "A" =
      Except.ok (((200000000 - 0 : Int) : ℚ) / 100000000) ∧
    dictGet ([("A", none)] : Balances) "A" = some none ∧
    monitor_address false (httpOk 200000000 0) itemA [("A", none)] =
      Except.ok ⟨dictSet [("A", none)] "A"
        (some (((200000000 - 0 : Int) : ℚ) / 100000000)), []⟩ :=
  ⟨rfl, rfl, rfl,
    first_observation_is_baseline false (httpOk 200000000 0) itemA
      [("A", none)] "A" (((200000000 - 0 : Int) : ℚ) / 100000000)
      rfl rfl rfl⟩

/-- C3: for every address and every step whose fetch succeeds with value
`bal`, the stored last-balance for that address equals `bal` at the end of
the step, in all three success sub-cases (baseline, change, unchanged),
whether or not a notification fired. -/
theorem success_updates_stored_balance (notify_errors : Bool)
    (http : String → PyResult Response) (item : Item) (lb : Balances)
    (addr : String) (bal : ℚ)
    (haddr : item.address = some addr)
    (hbal : get_balance http addr = Except.ok bal)
    (hstate : (dictGet lb addr).isSome) :
    ∃ r, monitor_address notify_errors http item lb = Except.ok r ∧
      dictGet r.balances addr = some (some bal) := by
  match hprev : dictGet lb addr with
  | none => rw [hprev] at hstate; exact absurd hstate (by simp)
  | some none =>
    refine ⟨⟨dictSet lb addr (some bal), []⟩, ?_, ?_⟩
    · simp [monitor_address, haddr, hbal, hprev]
    · simp [dictGet_dictSet]
  | some (some old) =>
    rcases lt_trichotomy old bal with h | h | h
    · refine ⟨⟨dictSet lb addr (some bal),
        [⟨funds_message ((item.title).getD addr) addr bal,
          "Bitcoin Funds Received!", some addr⟩]⟩, ?_, ?_⟩
      · simp [monitor_address, haddr, hbal, hprev, h]
      · simp [dictGet_dictSet]
    · refine ⟨⟨dictSet lb addr (some bal), []⟩, ?_, ?_⟩
      · simp [monitor_address, haddr, hbal, hprev, h]
      · simp [dictGet_dictSet]
    · refine ⟨⟨dictSet lb addr (some bal),
        [⟨decreased_message ((item.title).getD addr) addr bal,
          "Bitcoin Balance Decreased!", some addr⟩]⟩, ?_, ?_⟩
      · simp [monitor_address, haddr, hbal, hprev, not_lt_of_gt h, h]
      · simp [dictGet_dictSet]

theorem success_updates_stored_balance_witness :
    itemA.address = some "A" ∧
    get_balance (httpOk 200000000 0) "A" =
      Except.ok (((200000000 - 0 : Int) : ℚ) / 100000000) ∧
    (dictGet ([("A", some 1)] : Balances) "A").isSome ∧
    ∃ r, monitor_address false (httpOk 200000000 0) itemA [("A", some 1)] =
        Except.ok r ∧
      dictGet r.balances "A" =
        some (some (((200000000 - 0 : Int) : ℚ) / 100000000)) :=
  ⟨rfl, rfl, rfl,
    success_updates_stored_balance false (httpOk 200000000 0) itemA
      [("A", some 1)] "A" (((200000000 - 0 : Int) : ℚ) / 100000000)
      rfl rfl rfl⟩

/-- C4: for every address, when the fetch raises, the stored balance dict
after the step equals its value before the step, the step terminates
normally (`Except.ok`), and the round continues to the next address: the
round over `item :: rest` is the round over `rest` from the same dict, with
only this step's dispatches prepended. -/
theorem failed_fetch_leaves_state (notify_errors : Bool)
    (http : String → PyResult Response) (item : Item) (lb : Balances)
    (addr e : String)
    (haddr : item.address = some addr)
    (hfail : get_balance http addr = Except.error e) :
    ∃ r, monitor_address notify_errors http item lb = Except.ok r ∧
      r.balances = lb ∧
      ∀ rest, monitor_addresses notify_errors http (item :: rest) lb =
        Except.map (fun p => (p.1, r.dispatches ++ p.2))
          (monitor_addresses notify_errors http rest lb) := by
  have hstep : monitor_address notify_errors http item lb =
      Except.ok ⟨lb, if notify_errors then
        [⟨error_message ((item.title).getD addr) addr e,
          "Bitcoin Monitor Error", some addr⟩] else []⟩ := by
    simp [monitor_address, haddr, hfail]
  refine ⟨_, hstep, rfl, ?_⟩
  intro rest
  simp only [monitor_addresses, hstep]
  match hrest : monitor_addresses notify_errors http rest lb with
  | Except.error e' => simp [Except.map]
  | Except.ok (b, ds) => simp [Except.map]

theorem failed_fetch_leaves_state_witness :
    itemA.address = some "A" ∧
    get_balance httpDown "A" =
      Except.error "ConnectionError: blockstream.info unreachable" ∧
    ∃ r, monitor_address true httpDown itemA [("A", some 1)] =
        Except.ok r ∧
      r.balances = [("A", some 1)] ∧
      ∀ rest, monitor_addresses true httpDown (itemA :: rest)
          [("A", some 1)] =
        Except.map (fun p => (p.1, r.dispatches ++ p.2))
          (monitor_addresses true httpDown rest [("A", some 1)]) :=
  ⟨rfl, rfl,
    failed_fetch_leaves_state true httpDown itemA [("A", some 1)] "A"
      "ConnectionError: blockstream.info unreachable" rfl rfl⟩

/-- C1: for every address with a previously observed balance `old`, a step
whose fetch succeeds with value `bal` makes exactly one funds-received
dispatch when `bal > old`, exactly one balance-decreased dispatch when
`bal < old`, and no dispatch when `bal = old`. -/
theorem balance_change_dispatches (notify_errors : Bool)
    (http : String → PyResult Response) (item : Item) (lb : Balances)
    (addr : String) (old bal : ℚ)
    (haddr : item.address = some addr)
    (hbal : get_balance http addr = Except.ok bal)
    (hold : dictGet lb addr = some (some old)) :
    ∃ r, monitor_address notify_errors http item lb = Except.ok r ∧
      (old < bal → r.dispatches =
        [⟨funds_message ((item.title).getD addr) addr bal,
          "Bitcoin Funds Received!", some addr⟩]) ∧
      (bal < old → r.dispatches =
        [⟨decreased_message ((item.title).getD addr) addr bal,
          "Bitcoin Balance Decreased!", some addr⟩]) ∧
      (bal = old → r.dispatches = []) := by
  rcases lt_trichotomy old bal with h | h | h
  · refine ⟨⟨dictSet lb addr (some bal),
      [⟨funds_message ((item.title).getD addr) addr bal,
        "Bitcoin Funds Received!", some addr⟩]⟩, ?_, fun _ => rfl,
      fun h' => absurd h (by simp [not_lt, le_of_lt h']),
      fun h' => absurd h (by simp [h'])⟩
    simp [monitor_address, haddr, hbal, hold, h]
  · refine ⟨⟨dictSet lb addr (some bal), []⟩, ?_,
      fun h' => absurd h' (by simp [h]),
      fun h' => absurd h' (by simp [h]), fun _ => rfl⟩
    simp [monitor_address, haddr, hbal, hold, h]
  · refine ⟨⟨dictSet lb addr (some bal),
      [⟨decreased_message ((item.title).getD addr) addr bal,
        "Bitcoin Balance Decreased!", some addr⟩]⟩, ?_,
      fun h' => absurd h (by simp [not_lt, le_of_lt h']), fun _ => rfl,
      fun h' => absurd h (by simp [h'])⟩
    simp [monitor_address, haddr, hbal, hold, not_lt_of_gt h, h]

theorem balance_change_dispatches_witness :
    itemA.address = some "A" ∧
    get_balance (httpOk 200000000 0) "A" =
      Except.ok (((200000000 - 0 : Int) : ℚ) / 100000000) ∧
    dictGet ([("A", some 1)] : Balances) "A" = some (some 1) ∧
    ∃ r, monitor_address false (httpOk 200000000 0) itemA [("A", some 1)] =
        Except.ok r ∧
      ((1 : ℚ) < ((200000000 - 0 : Int) : ℚ) / 100000000 → r.dispatches =
        [⟨funds_message ((itemA.title).getD "A") "A"
            (((200000000 - 0 : Int) : ℚ) / 100000000),
          "Bitcoin Funds Received!", some "A"⟩]) ∧
      (((200000000 - 0 : Int) : ℚ) / 100000000 < 1 → r.dispatches =
        [⟨decreased_message ((itemA.title).getD "A") "A"
            (((200000000 - 0 : Int) : ℚ) / 100000000),
          "Bitcoin Balance Decreased!", some "A"⟩]) ∧
      (((200000000 - 0 : Int) : ℚ) / 100000000 = 1 → r.dispatches = []) :=
  ⟨rfl, rfl, rfl,
    balance_change_dispatches false (httpOk 200000000 0) itemA
      [("A", some 1)] "A" 1 (((200000000 - 0 : Int) : ℚ) / 100000000)
      rfl rfl rfl⟩

/-- C6: for every config, when the fetch for an address raises, the step
dispatches exactly one error notification (tagged with the address and the
failure detail) when `notify_errors` is truthy and none otherwise, and
`notify_errors` defaults to `False` when absent from the config dict. -/
theorem error_dispatch_iff_notify_errors (config : List (String × Json))
    (http : String → PyResult Response) (item : Item) (lb : Balances)
    (addr e : String)
    (haddr : item.address = some addr)
    (hfail : get_balance http addr = Except.error e) :
    ∃ r, monitor_address (truthy (notify_errors_of config)) http item lb =
        Except.ok r ∧
      (r.dispatches =
        if truthy (notify_errors_of config) then
          [⟨error_message ((item.title).getD addr) addr e,
            "Bitcoin Monitor Error", some addr⟩]
        else []) ∧
      (dictGet config "notify_errors" = none →
        truthy (notify_errors_of config) = false) := by
  refine ⟨⟨lb, if truthy (notify_errors_of config) then
      [⟨error_message ((item.title).getD addr) addr e,
        "Bitcoin Monitor Error", some addr⟩] else []⟩, ?_, rfl, ?_⟩
  · simp [monitor_address, haddr, hfail]
  · intro h
    simp [notify_errors_of, h, truthy]

theorem error_dispatch_iff_notify_errors_witness :
    itemA.address = some "A" ∧
    get_balance httpDown "A" =
      Except.error "ConnectionError: blockstream.info unreachable" ∧
    ∃ r, monitor_address
        (truthy (notify_errors_of [("interval", Json.num 60)])) httpDown
        itemA [("A", some 1)] = Except.ok r ∧
      (r.dispatches =
        if truthy (notify_errors_of [("interval", Json.num 60)]) then
          [⟨error_message ((itemA.title).getD "A") "A"
              "ConnectionError: blockstream.info unreachable",
            "Bitcoin Monitor Error", some "A"⟩]
        else []) ∧
      (dictGet [("interval", Json.num 60)] "notify_errors" = none →
        truthy (notify_errors_of [("interval", Json.num 60)]) = false) :=
  ⟨rfl, rfl,
    error_dispatch_iff_notify_errors [("interval", Json.num 60)] httpDown
      itemA [("A", some 1)] "A"
      "ConnectionError: blockstream.info unreachable" rfl rfl⟩

/-- C7: for every title and body (and optional address), calling
`_send_notification` with zero registered Apprise URLs completes without
error and performs no delivery call. -/
theorem send_notification_no_urls_noop (body title : String)
    (address : Option String) :
    send_notification [] body title address = [] := by
  simp [send_notification]

/-- C5 counterexample: a response whose body does contain both integer
fields `chain_stats.funded_txo_sum` and `chain_stats.spent_txo_sum`, but
whose HTTP status is 500, makes `get_balance` raise (via
`raise_for_status`) instead of returning the quotient, so the claim as
stated — quantifying over every response with those body fields — fails. -/
theorem get_balance_error_status_counterexample :
    (Response.mk 500 (chainBody 100000000 0)).body.getItem "chain_stats" =
      Except.ok (Json.obj [("funded_txo_sum", Json.num 100000000),
                           ("spent_txo_sum", Json.num 0)]) ∧
    get_balance (fun _ => Except.ok ⟨500, chainBody 100000000 0⟩) "A" =
      Except.error "HTTPError: 500" ∧
    get_balance (fun _ => Except.ok ⟨500, chainBody 100000000 0⟩) "A" ≠
      Except.ok ((((100000000 : Int) - 0 : Int) : ℚ) / 100000000) := by
  refine ⟨rfl, rfl, ?_⟩
  have h : get_balance (fun _ => Except.ok ⟨500, chainBody 100000000 0⟩)
      "A" = Except.error "HTTPError: 500" := rfl
  rw [h]
  simp

/-- C5 (amended): for every response with a success (non-raising, < 400)
HTTP status whose body contains the integer fields
`chain_stats.funded_txo_sum` and `chain_stats.spent_txo_sum`, `get_balance`
returns `(funded_txo_sum - spent_txo_sum) / 100000000`. -/
theorem get_balance_success_formula (http : String → PyResult Response)
    (address : String) (resp : Response) (cfields : List (String × Json))
    (f s : Int)
    (hhttp : http address = Except.ok resp)
    (hstatus : resp.status_code < 400)
    (hcs : resp.body.getItem "chain_stats" = Except.ok (Json.obj cfields))
    (hf : dictGet cfields "funded_txo_sum" = some (Json.num f))
    (hs : dictGet cfields "spent_txo_sum" = some (Json.num s)) :
    get_balance http address =
      Except.ok (((f : ℚ) - (s : ℚ)) / 100000000) := by
  have hrs : raise_for_status resp = Except.ok () := by
    unfold raise_for_status
    rw [if_neg (by omega)]
  simp only [get_balance, hhttp, hrs, hcs]
  simp [Json.getItem, hf, hs, jsonSub]

theorem get_balance_success_formula_witness :
    httpOk 150000000 50000000 "A" =
      Except.ok ⟨200, chainBody 150000000 50000000⟩ ∧
    (Response.mk 200 (chainBody 150000000 50000000)).status_code < 400 ∧
    (Response.mk 200
        (chainBody 150000000 50000000)).body.getItem "chain_stats" =
      Except.ok (Json.obj [("funded_txo_sum", Json.num 150000000),
                           ("spent_txo_sum", Json.num 50000000)]) ∧
    dictGet [("funded_txo_sum", Json.num 150000000),
             ("spent_txo_sum", Json.num 50000000)] "funded_txo_sum" =
      some (Json.num 150000000) ∧
    dictGet [("funded_txo_sum", Json.num 150000000),
             ("spent_txo_sum", Json.num 50000000)] "spent_txo_sum" =
      some (Json.num 50000000) ∧
    get_balance (httpOk 150000000 50000000) "A" =
      Except.ok ((((150000000 : Int) : ℚ) - ((50000000 : Int) : ℚ)) /
        100000000) :=
  ⟨rfl, by decide, rfl, rfl, rfl,
    get_balance_success_formula (httpOk 150000000 50000000) "A"
      ⟨200, chainBody 150000000 50000000⟩
      [("funded_txo_sum", Json.num 150000000),
       ("spent_txo_sum", Json.num 50000000)]
      150000000 50000000 rfl (by decide) rfl rfl rfl⟩

theorem init_balances_aux_get (cfg : List Item) :
    ∀ acc : Balances, (∀ item ∈ cfg, (item.address).isSome) →
    ∃ d, init_balances_aux acc cfg = Except.ok d ∧
      ∀ a, dictGet d a =
        if some a ∈ cfg.map Item.address then some none
        else dictGet acc a := by
  induction cfg with
  | nil =>
    intro acc _
    exact ⟨acc, rfl, fun a => by simp⟩
  | cons item rest ih =>
    intro acc h
    match hi : item.address with
    | none =>
      have hsome := h item (by simp)
      rw [hi] at hsome
      exact absurd hsome (by simp)
    | some addr =>
      obtain ⟨d, hd, hget⟩ := ih (dictSet acc addr none)
        (fun i hmem => h i (List.mem_cons_of_mem _ hmem))
      refine ⟨d, ?_, ?_⟩
      · simp [init_balances_aux, hi, hd]
      · intro a
        rw [hget a, dictGet_dictSet]
        by_cases h1 : some a ∈ rest.map Item.address <;>
          by_cases h2 : a = addr <;>
          simp [hi, h1, h2]

theorem init_balances_aux_nodup (cfg : List Item) :
    ∀ acc : Balances, (acc.map Prod.fst).Nodup →
    ∀ d, init_balances_aux acc cfg = Except.ok d →
      (d.map Prod.fst).Nodup := by
  induction cfg with
  | nil =>
    intro acc h d hd
    cases hd
    exact h
  | cons item rest ih =>
    intro acc h d hd
    match hi : item.address with
    | none =>
      rw [init_balances_aux, hi] at hd
      exact absurd hd (by simp)
    | some addr =>
      rw [init_balances_aux, hi] at hd
      exact ih (dictSet acc addr none)
        (nodup_map_fst_dictSet acc addr none h) d hd

/-- C9: for every configured address sequence whose descriptors all carry
the `address` key, the initialized balance dict has exactly one slot per
distinct address value (keys are pairwise distinct; duplicate address
strings collapse to one slot) and every slot is unobserved (`None`). -/
theorem init_balances_one_slot_per_address (cfg : List Item)
    (h : ∀ item ∈ cfg, (item.address).isSome) :
    ∃ d, init_balances cfg = Except.ok d ∧
      (d.map Prod.fst).Nodup ∧
      ∀ a, dictGet d a =
        if some a ∈ cfg.map Item.address then some none else none := by
  obtain ⟨d, hd, hget⟩ := init_balances_aux_get cfg [] h
  refine ⟨d, hd, init_balances_aux_nodup cfg [] (by simp) d hd, fun a => ?_⟩
  rw [hget a]
  simp [dictGet]

theorem init_balances_one_slot_per_address_witness :
    (∀ item ∈ ([⟨some "A", none⟩, ⟨some "B", some "X"⟩,
        ⟨some "A", some "Y"⟩] : List Item), (item.address).isSome) ∧
    ∃ d, init_balances [⟨some "A", none⟩, ⟨some "B", some "X"⟩,
        ⟨some "A", some "Y"⟩] = Except.ok d ∧
      (d.map Prod.fst).Nodup ∧
      ∀ a, dictGet d a =
        if some a ∈ ([⟨some "A", none⟩, ⟨some "B", some "X"⟩,
            ⟨some "A", some "Y"⟩] : List Item).map Item.address
        then some none else none :=
  ⟨by decide,
    init_balances_one_slot_per_address
      [⟨some "A", none⟩, ⟨some "B", some "X"⟩, ⟨some "A", some "Y"⟩]
      (by decide)⟩

/-- C10: the per-address step is not total: a descriptor lacking the
`address` key makes `monitor_address` raise `KeyError` before its
`try` block (for every monitor configuration and network), and such an
exception escapes the step and aborts the whole round. -/
theorem missing_address_key_escapes_step :
    (∀ (notify_errors : Bool) (http : String → PyResult Response)
        (t : Option String) (lb : Balances),
      monitor_address notify_errors http ⟨none, t⟩ lb =
        Except.error "KeyError: address") ∧
    monitor_addresses false httpDown
      [⟨some "A", none⟩, ⟨none, some "broken"⟩, ⟨some "B", none⟩]
      [("A", none), ("B", none)] = Except.error "KeyError: address" := by
  exact ⟨fun _ _ _ _ => rfl, rfl⟩

/-- Every `_send_notification` call a normally terminating step makes is one
of the three fixed builders applied to the step's title label and address. -/
theorem monitor_address_dispatch_shapes (notify_errors : Bool)
    (http : String → PyResult Response) (item : Item) (lb : Balances)
    (addr : String) (r : StepResult)
    (haddr : item.address = some addr)
    (hok : monitor_address notify_errors http item lb = Except.ok r) :
    ∀ d ∈ r.dispatches,
      (∃ bal : ℚ, d = ⟨funds_message ((item.title).getD addr) addr bal,
        "Bitcoin Funds Received!", some addr⟩) ∨
      (∃ bal : ℚ, d = ⟨decreased_message ((item.title).getD addr) addr bal,
        "Bitcoin Balance Decreased!", some addr⟩) ∨
      (∃ e : String, d = ⟨error_message ((item.title).getD addr) addr e,
        "Bitcoin Monitor Error", some addr⟩) := by
  intro d hd
  simp only [monitor_address, haddr] at hok
  split at hok
  · rename_i e heq
    injection hok with h
    subst h
    cases hne : notify_errors <;> rw [hne] at hd <;> simp at hd
    subst hd
    exact Or.inr (Or.inr ⟨e, rfl⟩)
  · rename_i balance heq
    split at hok
    · rename_i hprev
      injection hok with h
      subst h
      cases hne : notify_errors <;> rw [hne] at hd <;> simp at hd
      subst hd
      exact Or.inr (Or.inr ⟨"KeyError: " ++ addr, rfl⟩)
    · injection hok with h
      subst h
      simp at hd
    · rename_i old hprev
      split at hok
      · injection hok with h
        subst h
        simp at hd
        subst hd
        exact Or.inl ⟨balance, rfl⟩
      · split at hok
        · injection hok with h
          subst h
          simp at hd
          subst hd
          exact Or.inr (Or.inl ⟨balance, rfl⟩)
        · injection hok with h
          subst h
          simp at hd

/-- Concrete evaluation of one increase step: previous balance 1 BTC, fetch
yields 200000000 satoshi, so exactly one funds-received dispatch fires. -/
theorem monitor_address_increase_eval :
    monitor_address false (httpOk 200000000 0) itemA [("A", some 1)] =
      Except.ok ⟨dictSet [("A", some 1)] "A"
          (some (((200000000 - 0 : Int) : ℚ) / 100000000)),
        [⟨funds_message ((itemA.title).getD "A") "A"
            (((200000000 - 0 : Int) : ℚ) / 100000000),
          "Bitcoin Funds Received!", some "A"⟩]⟩ := by
  have h1 : get_balance (httpOk 200000000 0) "A" =
      Except.ok (((200000000 - 0 : Int) : ℚ) / 100000000) := rfl
  have hgt : (1 : ℚ) < ((200000000 - 0 : Int) : ℚ) / 100000000 := by
    norm_num
  have hprev : dictGet ([("A", some 1)] : Balances) "A" = some (some 1) :=
    rfl
  simp [monitor_address, itemA, h1, hprev, hgt]
  intro h
  norm_num at h

/-- C8 counterexample: at a concrete increase step the program emits exactly
one notification, and its title is the fixed string
"Bitcoin Funds Received!" — not "Funds Received" — so the claim's exact
title strings fail on the code. -/
theorem funds_title_not_bare_string :
    Except.map (fun r => r.dispatches.map Dispatch.title)
      (monitor_address false (httpOk 200000000 0) itemA [("A", some 1)]) =
      Except.ok ["Bitcoin Funds Received!"] ∧
    "Bitcoin Funds Received!" ≠ "Funds Received" := by
  rw [monitor_address_increase_eval]
  exact ⟨rfl, by decide⟩

/-- C8 (amended): every notification uses the fixed title string of its
event kind — "Bitcoin Funds Received!", "Bitcoin Balance Decreased!",
"Bitcoin Monitor Error", and "Bitcoin Monitor Test Notification" for test
messages — and for balance-change events the body contains the descriptor
title, the address, and the balance formatted with exactly eight fractional
digits. -/
theorem dispatch_titles_and_bodies (notify_errors : Bool)
    (http : String → PyResult Response) (item : Item) (lb : Balances)
    (addr : String) (r : StepResult)
    (haddr : item.address = some addr)
    (hok : monitor_address notify_errors http item lb = Except.ok r) :
    (∀ d ∈ r.dispatches,
      (∃ bal : ℚ, d = ⟨funds_message ((item.title).getD addr) addr bal,
        "Bitcoin Funds Received!", some addr⟩) ∨
      (∃ bal : ℚ, d = ⟨decreased_message ((item.title).getD addr) addr bal,
        "Bitcoin Balance Decreased!", some addr⟩) ∨
      (∃ e : String, d = ⟨error_message ((item.title).getD addr) addr e,
        "Bitcoin Monitor Error", some addr⟩)) ∧
    (∀ urls : List String, ∀ n ∈ send_test_notification urls,
      n.title = "Bitcoin Monitor Test Notification") ∧
    (∀ (t a : String) (b : ℚ),
      (∃ p q, funds_message t a b = p ++ t ++ q) ∧
      (∃ p q, funds_message t a b = p ++ a ++ q) ∧
      (∃ p q, funds_message t a b = p ++ format8 b ++ q) ∧
      (∃ p q, decreased_message t a b = p ++ t ++ q) ∧
      (∃ p q, decreased_message t a b = p ++ a ++ q) ∧
      (∃ p q, decreased_message t a b = p ++ format8 b ++ q)) ∧
    (∀ q : ℚ, ∃ s : String, ∃ ds : List Char,
      format8 q = s ++ "." ++ String.mk ds ∧ ds.length = 8) := by
  refine ⟨monitor_address_dispatch_shapes notify_errors http item lb addr r
    haddr hok, ?_, ?_, ?_⟩
  · intro urls n hn
    unfold send_test_notification at hn
    split at hn
    · simp at hn
    · simp at hn
      subst hn
      rfl
  · intro t a b
    refine ⟨⟨"🎉 New funds received for ",
        " (" ++ a ++ ")! Balance increased to " ++ format8 b ++ " BTC", ?_⟩,
      ⟨"🎉 New funds received for " ++ t ++ " (",
        ")! Balance increased to " ++ format8 b ++ " BTC", ?_⟩,
      ⟨"🎉 New funds received for " ++ t ++ " (" ++ a ++
          ")! Balance increased to ", " BTC", ?_⟩,
      ⟨"⚠️ Balance decreased for ",
        " (" ++ a ++ ")! Now " ++ format8 b ++ " BTC", ?_⟩,
      ⟨"⚠️ Balance decreased for " ++ t ++ " (",
        ")! Now " ++ format8 b ++ " BTC", ?_⟩,
      ⟨"⚠️ Balance decreased for " ++ t ++ " (" ++ a ++ ")! Now ",
        " BTC", ?_⟩⟩ <;>
      simp [funds_message, decreased_message, String.append_assoc]
  · intro q
    refine ⟨(if q < 0 then "-" else "") ++
        toString ((round (|q| * 100000000)).toNat / 100000000),
      frac8 ((round (|q| * 100000000)).toNat % 100000000), rfl, ?_⟩
    simp [frac8]

theorem dispatch_titles_and_bodies_witness :
    itemA.address = some "A" ∧
    monitor_address false (httpOk 200000000 0) itemA [("A", some 1)] =
      Except.ok ⟨dictSet [("A", some 1)] "A"
          (some (((200000000 - 0 : Int) : ℚ) / 100000000)),
        [⟨funds_message ((itemA.title).getD "A") "A"
            (((200000000 - 0 : Int) : ℚ) / 100000000),
          "Bitcoin Funds Received!", some "A"⟩]⟩ ∧
    ((∀ d ∈ (StepResult.mk (dictSet [("A", some 1)] "A"
          (some (((200000000 - 0 : Int) : ℚ) / 100000000)))
        [⟨funds_message ((itemA.title).getD "A") "A"
            (((200000000 - 0 : Int) : ℚ) / 100000000),
          "Bitcoin Funds Received!", some "A"⟩]).dispatches,
      (∃ bal : ℚ, d = ⟨funds_message ((itemA.title).getD "A") "A" bal,
        "Bitcoin Funds Received!", some "A"⟩) ∨
      (∃ bal : ℚ, d = ⟨decreased_message ((itemA.title).getD "A") "A" bal,
        "Bitcoin Balance Decreased!", some "A"⟩) ∨
      (∃ e : String, d = ⟨error_message ((itemA.title).getD "A") "A" e,
        "Bitcoin Monitor Error", some "A"⟩)) ∧
    (∀ urls : List String, ∀ n ∈ send_test_notification urls,
      n.title = "Bitcoin Monitor Test Notification") ∧
    (∀ (t a : String) (b : ℚ),
      (∃ p q, funds_message t a b = p ++ t ++ q) ∧
      (∃ p q, funds_message t a b = p ++ a ++ q) ∧
      (∃ p q, funds_message t a b = p ++ format8 b ++ q) ∧
      (∃ p q, decreased_message t a b = p ++ t ++ q) ∧
      (∃ p q, decreased_message t a b = p ++ a ++ q) ∧
      (∃ p q, decreased_message t a b = p ++ format8 b ++ q)) ∧
    (∀ q : ℚ, ∃ s : String, ∃ ds : List Char,
      format8 q = s ++ "." ++ String.mk ds ∧ ds.length = 8)) := by
  have hok := monitor_address_increase_eval
  exact ⟨rfl, hok,
    dispatch_titles_and_bodies false (httpOk 200000000 0) itemA
      [("A", some 1)] "A" _ rfl hok⟩

end BitcoinNotifier
